import Mathlib

/-!
Verification of the simview batched-playback core against its
natural-language specification.

The JavaScript source is shallowly embedded: numbers that only ever hold
exact decimal values in the scenarios of interest are modelled as rationals
(`ℚ`), JS `Math.round` as floor of `x + 1/2`, JS exceptions as `Except`,
and the in-place mutation of component objects as explicit state passing
over Lean structures.  Rendering-only side effects (THREE.js scene-graph
objects, arrows, colors of meshes) carry no data observed by any claim and
are omitted; the data layer (poses, attribute storage, playback clock,
batch layout) is translated function by function.
-/

/-- JS `Math.round`: rounds half-way cases towards positive infinity,
i.e. `Math.round(x) = floor(x + 0.5)`. -/
def jsRound (q : ℚ) : ℤ := ⌊q + 1/2⌋

/-! ## BatchManager (src/simview/static/js/components/BatchManager.js)

`Math.ceil(Math.sqrt(n))` on a nonnegative integer `n` is embedded as
`ceilSqrt n`. -/

namespace BatchManager

/-- Embedding of `Math.ceil(Math.sqrt(n))` for a natural number `n`. -/
def ceilSqrt (n : ℕ) : ℕ :=
  if Nat.sqrt n * Nat.sqrt n = n then Nat.sqrt n else Nat.sqrt n + 1

/-- Embedding of `getRowColFromBatchIndex` (BatchManager.js lines 73-81): guard on the
index range, then row-major decomposition by the grid side length. -/
def getRowColFromBatchIndex (simBatches : ℕ) (batchIndex : ℤ) : ℤ × ℤ :=
  if batchIndex < 0 ∨ (simBatches : ℤ) ≤ batchIndex then (-1, -1)
  else
    let sideLength : ℤ := ceilSqrt simBatches
    (batchIndex / sideLength, batchIndex % sideLength)

/-- Embedding of `getBatchIndexFromRowCol` (BatchManager.js lines 83-98): sentinel `-1`
for cells outside the square grid, and for computed indices outside
`[0, simBatches)`. -/
def getBatchIndexFromRowCol (simBatches : ℕ) (rowIdx colIdx : ℤ) : ℤ :=
  let sideLength : ℤ := ceilSqrt simBatches
  if rowIdx < 0 ∨ colIdx < 0 ∨ sideLength ≤ rowIdx ∨ sideLength ≤ colIdx then -1
  else
    let batchIndex := rowIdx * sideLength + colIdx
    if batchIndex < 0 ∨ (simBatches : ℤ) ≤ batchIndex then -1 else batchIndex

/-- Anchor color list `BATCH_PALETTE_GENERATION_CONFIG.colors` (config.js). -/
def batchPaletteColors : List String :=
  ["#00429d", "#96ffea", "#ff40e0", "#ffffe0", "#ff005e", "#93003a"]

/-- Embedding of `generateDivergingPalette` (objects/utils.js lines 353-378).  The
chroma.js bezier/Lab scale sampling is abstracted as a `scaleColors`
function argument; chroma guarantees `scale.colors(n)` returns exactly `n`
colors and is a pure function of the anchor list and `n`.  The list
structure (split at the midpoint, sample each half, drop the duplicated
midpoint from the left half, concatenate) is translated literally. -/
def generateDivergingPalette {α : Type} (scaleColors : List α → ℕ → List α)
    (colors : List α) (numColors : ℕ) : List α :=
  let midpointIndex := colors.length / 2
  let leftColors := colors.take (midpointIndex + 1)
  let rightColors := colors.drop midpointIndex
  -- numEach = Math.ceil(numColors / 2)
  let numEach := (numColors + 1) / 2
  (scaleColors leftColors numEach).dropLast ++ scaleColors rightColors numEach

/-- Embedding of `BatchManager._initialize` (lines 54-59): the palette is generated from
the fixed anchor list with `numColors = simBatches + 1`. -/
def batchPalette (scaleColors : List String → ℕ → List String)
    (simBatches : ℕ) : List String :=
  generateDivergingPalette scaleColors batchPaletteColors (simBatches + 1)

/-- Embedding of `getColorForBatch` (lines 66-71): black for an out-of-range index,
otherwise the palette entry. -/
def getColorForBatch (scaleColors : List String → ℕ → List String)
    (simBatches : ℕ) (batchIndex : ℤ) : String :=
  if batchIndex < 0 ∨ (simBatches : ℤ) ≤ batchIndex then "#000000"
  else (batchPalette scaleColors simBatches).getD batchIndex.toNat "#000000"

/-- A concrete sampling function with chroma's documented behavior of
returning exactly `n` colors, used to evaluate the palette length at
concrete inputs. -/
def sampleScaleColors (anchors : List String) (n : ℕ) : List String :=
  (List.range n).map (fun i => (anchors.headD "#000000") ++ toString i)

end BatchManager

/-! ## SimView socket gate (src/simview/static/js/components/AnimationController.js,
second module: `SimView`, lines 236-298)

The socket logic observable for the accept-gate is embedded as a state
machine.  `canReceiveStates` is the boolean gate of the constructor
(line 249).  A `states` payload only runs `statesHandler` when a listener
is registered; `socket.on("states", statesHandler)` is first executed
inside the `model` handler (line 293), so before any model arrives a
delivered states payload runs no code at all.  `processedStates` counts
the calls to `processStates` (accepted payloads);
`entitiesConstructed` records that `initFromModel` has run. -/

namespace SimView

structure GateState where
  canReceiveStates : Bool
  statesListenerAttached : Bool
  entitiesConstructed : Bool
  processedStates : ℕ
  deriving DecidableEq, Repr

/-- State after the `SimView` constructor: `canReceiveStates = true`
(line 249), no states listener registered yet, no entities. -/
def initGate : GateState :=
  { canReceiveStates := true
    statesListenerAttached := false
    entitiesConstructed := false
    processedStates := 0 }

/-- Embedding of `initFromModel` (lines 305-356): tears down and reconstructs every
entity; for the gate machine its footprint is `entitiesConstructed`. -/
def initFromModelGate (s : GateState) : GateState :=
  { s with entitiesConstructed := true }

/-- The body of `socket.on("model", ...)` (lines 288-296): run
`initFromModel`, only then set the gate true and (re)register the single
states listener. -/
def handleModel (s : GateState) : GateState :=
  let s := initFromModelGate s
  { s with canReceiveStates := true, statesListenerAttached := true }

/-- Delivery of a `states` payload: runs `statesHandler` (lines 277-285)
when a listener is attached, which accepts exactly when the gate is true,
flipping it false; with no listener attached nothing runs. -/
def handleStates (s : GateState) : GateState :=
  if s.statesListenerAttached then
    if s.canReceiveStates then
      { s with canReceiveStates := false, processedStates := s.processedStates + 1 }
    else s
  else s

inductive SocketEvent
  | modelArrives
  | statesArrives
  deriving DecidableEq, Repr

def socketStep (s : GateState) : SocketEvent → GateState
  | .modelArrives => handleModel s
  | .statesArrives => handleStates s

def socketRun (s : GateState) (events : List SocketEvent) : GateState :=
  events.foldl socketStep s

end SimView

/-! ## Body (src/simview/static/js/objects/Body.js)

Per-batch data layer of a body: positions, quaternions (stored in
THREE.js `(x, y, z, w)` component order), and the optional-attribute
storage keyed by attribute name.  A storage slot is a `List ℚ`: for
`"contacts"` the list of active contact indices of that batch, for
vector attributes the three stored components.  The THREE.js visual
updaters (`updateBodyVector`, `updateContactPointsVisibility`) mutate
scene-graph objects only and are not part of the data state. -/

namespace BodyModel

structure Vec3 where
  x : ℚ
  y : ℚ
  z : ℚ
  deriving DecidableEq, Repr

/-- THREE.js component order `(x, y, z, w)`. -/
structure Quat where
  qx : ℚ
  qy : ℚ
  qz : ℚ
  qw : ℚ
  deriving DecidableEq, Repr

/-- An incoming numeric field of a state slice: the JS code distinguishes
a flat array from an array of per-batch arrays by `Array.isArray(data[0])`. -/
inductive AttrData
  | flat (v : List ℚ)
  | batched (vs : List (List ℚ))
  deriving DecidableEq, Repr

structure Body where
  name : String
  batchSize : ℕ
  positions : List Vec3
  quaternions : List Quat
  availableAttributes : List String
  attributeStorage : List (String × List (List ℚ))
  deriving DecidableEq, Repr

/-- Embedding of `Body.constructor` (Body.js lines 12-104), data layer: mandatory pose
arrays of length `batchSize` (`Vector3()` is the origin, `Quaternion()` is
the identity `(0,0,0,1)`), optional-attribute storage initialized from
`bodyData.availableAttributes` (`contacts` ↦ empty index list per batch,
vector attributes ↦ zero vector per batch, stored as `[0,0,0]`). -/
def mkBody (name : String) (batchSize : ℕ)
    (availableAttributes : List String) : Body :=
  { name := name
    batchSize := batchSize
    positions := List.replicate batchSize ⟨0, 0, 0⟩
    quaternions := List.replicate batchSize ⟨0, 0, 0, 1⟩
    availableAttributes := availableAttributes
    attributeStorage := availableAttributes.map (fun attr =>
      (attr, List.replicate batchSize
        (if attr = "contacts" then ([] : List ℚ) else [0, 0, 0]))) }

/-- Embedding of `setPosition` (lines 215-232), data layer: guard on data length and
batch index, then store the first three components. -/
def setPosition (b : Body) (positionData : List ℚ) (batchIndex : ℕ) : Body :=
  if positionData.length < 3 ∨ b.batchSize ≤ batchIndex then b
  else
    let p : Vec3 :=
      ⟨positionData.getD 0 0, positionData.getD 1 0, positionData.getD 2 0⟩
    { b with positions := b.positions.set batchIndex p }

/-- Embedding of `setOrientation` (lines 234-245): the wire order is scalar-first
`[qw, qx, qy, qz]`; `quaternion.set(qx, qy, qz, qw)` stores component-first. -/
def setOrientation (b : Body) (orientationData : List ℚ) (batchIndex : ℕ) : Body :=
  if orientationData.length < 4 ∨ b.batchSize ≤ batchIndex then b
  else
    let q : Quat :=
      ⟨orientationData.getD 1 0, orientationData.getD 2 0,
       orientationData.getD 3 0, orientationData.getD 0 0⟩
    { b with quaternions := b.quaternions.set batchIndex q }

/-- Embedding of `updateAttribute` (lines 133-144): no-op unless the attribute has a
storage slot and the batch index is in range; `contacts` stores the raw
index list, vector attributes store the first three components
(`fromArray`), falling back to `[0,0,0]` for short data. -/
def updateAttribute (b : Body) (attr : String) (data : List ℚ)
    (batchIndex : ℕ) : Body :=
  if (b.attributeStorage.lookup attr).isNone ∨ b.batchSize ≤ batchIndex then b
  else
    let newSlot :=
      if attr = "contacts" then data
      else if 3 ≤ data.length then data.take 3 else [0, 0, 0]
    { b with attributeStorage := b.attributeStorage.map (fun e =>
        if e.1 = attr then (e.1, e.2.set batchIndex newSlot) else e) }

/-- The batched-update loop pattern
`for (let i = 0; i < Math.min(this.batchSize, data.length); i++)`. -/
def applyBatched (f : Body → List ℚ → ℕ → Body) (b : Body)
    (vs : List (List ℚ)) : Body :=
  (List.range (min b.batchSize vs.length)).foldl
    (fun acc i => f acc (vs.getD i []) i) b

/-- A per-body state slice of one snapshot (the JS object handed to
`updateState`): optional pose fields and the named attribute fields.
In the wire format (§6 of the spec) the pose keys and the optional
attribute names are disjoint. -/
structure BodyStateSlice where
  name : String
  position : Option AttrData
  orientation : Option AttrData
  bodyTransform : Option AttrData
  attrs : List (String × AttrData)
  deriving DecidableEq, Repr

/-- The `bodyTransform` helper of `updateState` (lines 181-187): a
7-element transform `[x,y,z,qw,qx,qy,qz]` sets position and orientation. -/
def applyTransform (b : Body) (t : List ℚ) (i : ℕ) : Body :=
  if 7 ≤ t.length then
    setOrientation
      (setPosition b [t.getD 0 0, t.getD 1 0, t.getD 2 0] i)
      [t.getD 3 0, t.getD 4 0, t.getD 5 0, t.getD 6 0] i
  else b

/-- Dispatch on the shape of an incoming field: flat data applies to batch
0 only, batched data applies per batch up to `min(batchSize, length)`. -/
def applyField (f : Body → List ℚ → ℕ → Body) (b : Body) : Option AttrData → Body
  | none => b
  | some (.flat v) => f b v 0
  | some (.batched vs) => applyBatched f b vs

/-- One iteration of the optional-attribute loop of `updateState`
(lines 200-212): `if (bodyState[attr])`, then dispatch flat vs batched
data into `updateAttribute`. -/
def updateStateAttrStep (attrs : List (String × AttrData)) (acc : Body)
    (attr : String) : Body :=
  match attrs.lookup attr with
  | none => acc
  | some d => applyField (fun bb v i => updateAttribute bb attr v i) acc (some d)

/-- The pose part of `updateState` (lines 146-198): position, then
orientation, then `bodyTransform`. -/
def updateStatePose (b : Body) (slice : BodyStateSlice) : Body :=
  applyField applyTransform
    (applyField setOrientation
      (applyField setPosition b slice.position)
      slice.orientation)
    slice.bodyTransform

/-- Embedding of `updateState` (lines 146-213): position, orientation, `bodyTransform`,
then the optional-attribute loop, which iterates over the keys of
`this.attributeStorage` and only reads slice fields with those names.
Total: no input shape raises an error. -/
def updateState (b : Body) (slice : BodyStateSlice) : Body :=
  ((updateStatePose b slice).attributeStorage.map Prod.fst).foldl
    (updateStateAttrStep slice.attrs) (updateStatePose b slice)

end BodyModel

/-! ## AnimationController (src/simview/static/js/components/AnimationController.js,
first module, lines 3-224)

JS `undefined`/`NaN` timestep values are all falsy in the inference check
`(!this.simulationTimestep || isNaN(this.simulationTimestep))`; in the
rational embedding every such invalid value is encoded as `0`, which is
exactly the set of values the check replaces.  `performance.now()`-derived
fields (`lastUpdateTime`, `startTime`) are wall-clock data outside the
embedding; no claim observes them.  `capturer` is modelled as the flag
that a CCapture instance exists. -/

namespace AnimationControllerModel

open BodyModel

/-- One snapshot of the states array: an absolute time plus per-body
slices. -/
structure Snapshot where
  time : ℚ
  bodies : List BodyStateSlice
  deriving DecidableEq, Repr

def defaultSnapshot : Snapshot := ⟨0, []⟩

structure AnimationController where
  states : List Snapshot
  isPlaying : Bool
  playbackSpeed : ℚ
  isRecording : Bool
  hasCapturer : Bool
  recordingFormat : String
  currentStateIndex : ℤ
  totalTime : ℚ
  currentTime : ℚ
  simulationTimestep : ℚ
  appBodies : List (String × Body)
  deriving DecidableEq, Repr

/-- Embedding of `AnimationController.constructor` (lines 4-19); `simulationTimestep`
is the `model.dt` argument, `none` standing for `undefined`. -/
def mkController (simulationTimestep : Option ℚ)
    (appBodies : List (String × Body)) : AnimationController :=
  { states := []
    isPlaying := false
    playbackSpeed := 1
    isRecording := false
    hasCapturer := false
    recordingFormat := "jpg"
    currentStateIndex := 0
    totalTime := 0
    currentTime := 0
    simulationTimestep := simulationTimestep.getD 0
    appBodies := appBodies }

/-- Embedding of `getStateIndexForTime` (lines 89-95): nearest-neighbor rounding of
`targetTime / simulationTimestep`, then clamping — first at 0, then at
`states.length - 1`. -/
def getStateIndexForTime (c : AnimationController) (targetTime : ℚ) : ℤ :=
  let q := jsRound (targetTime / c.simulationTimestep)
  let q := if q < 0 then 0 else q
  if (c.states.length : ℤ) ≤ q then (c.states.length : ℤ) - 1 else q

/-- Embedding of `updateScene` (lines 198-212): look up the current snapshot (a JS
out-of-range or negative index reads `undefined` and returns early), then
hand each per-body slice to the named body's `updateState`.  The
scalar-plotter notification is a UI side effect. -/
def updateScene (c : AnimationController) : AnimationController :=
  if c.currentStateIndex < 0 then c
  else
    match c.states.get? c.currentStateIndex.toNat with
    | none => c
    | some st =>
        let newBodies := st.bodies.foldl
          (fun bodies bodyState => bodies.map (fun e =>
            if e.1 = bodyState.name then (e.1, updateState e.2 bodyState) else e))
          c.appBodies
        { c with appBodies := newBodies }

/-- Embedding of `seekToIndex` (lines 97-101): set the index, read the snapshot's time
(`this.states[index].time`), and push the state into the scene. -/
def seekToIndex (c : AnimationController) (index : ℤ) : AnimationController :=
  updateScene { c with
    currentStateIndex := index,
    currentTime := (c.states.getD index.toNat defaultSnapshot).time }

/-- Embedding of `stepForward` (lines 103-108): ignored while playing, else advance
the index modulo the timeline length. -/
def stepForward (c : AnimationController) : AnimationController :=
  if c.isPlaying then c
  else seekToIndex c ((c.currentStateIndex + 1) % (c.states.length : ℤ))

/-- Embedding of `stepBackward` (lines 110-116). -/
def stepBackward (c : AnimationController) : AnimationController :=
  if c.isPlaying then c
  else seekToIndex c
    ((c.currentStateIndex - 1 + (c.states.length : ℤ)) % (c.states.length : ℤ))

/-- Embedding of `goToTime` (lines 118-125): out-of-bounds time returns immediately;
otherwise seek to the rounded index.  `forceRedrawStaticElements` is a
pure UI redraw. -/
def goToTime (c : AnimationController) (time : ℚ) : AnimationController :=
  if time < 0 ∨ c.totalTime < time then c
  else seekToIndex c (getStateIndexForTime c time)

/-- Timestep inference inside `loadAnimation` (lines 26-38). -/
def inferTimestep (ts : ℚ) (states : List Snapshot) : ℚ :=
  if ts = 0 ∧ 1 < states.length then
    let dt := (states.getD 1 defaultSnapshot).time - (states.getD 0 defaultSnapshot).time
    if 0 < dt then dt else 1 / 60
  else if ts = 0 then 1 / 60
  else ts

/-- Embedding of `loadAnimation` (lines 21-42): store the states, take the last
snapshot's time as the total, infer the timestep if needed, and seek to
time 0.  The `PlaybackControls` construction is UI-only. -/
def loadAnimation (c : AnimationController) (states : List Snapshot) :
    AnimationController :=
  let c := { c with
    states := states,
    totalTime := (states.getD (states.length - 1) defaultSnapshot).time }
  let c := { c with simulationTimestep := inferTimestep c.simulationTimestep states }
  goToTime c 0

/-- Embedding of `play` (lines 44-49); the wall-clock `lastUpdateTime` write is outside
the embedding. -/
def play (c : AnimationController) : AnimationController :=
  if c.isPlaying then c else { c with isPlaying := true }

structure RecordingOptions where
  framerate : ℕ
  verbose : Bool
  motionBlurFrames : ℕ
  format : String
  quality : Option ℕ
  deriving DecidableEq, Repr

/-- Embedding of `getRecordingOptionsForFormat` (lines 63-82): only `"jpg"` and
`"png"` are supported; any other format throws. -/
def getRecordingOptionsForFormat (format : String) :
    Except String RecordingOptions :=
  if format = "jpg" then
    .ok { framerate := 30, verbose := false, motionBlurFrames := 0,
          format := "jpg", quality := some 600 }
  else if format = "png" then
    .ok { framerate := 30, verbose := false, motionBlurFrames := 0,
          format := "png", quality := none }
  else
    .error ("Unsupported format: " ++ format)

/-- Embedding of `startRecording` (lines 127-141): early return while recording,
**then the seek to index 0**, then the format lookup, which throws for
unsupported formats — the JS exception propagates with the receiver
already mutated by the seek, returned here as the state paired with
`some errorMessage`. -/
def startRecording (c : AnimationController) :
    AnimationController × Option String :=
  if c.isRecording then (c, none)
  else
    let c1 := seekToIndex c 0
    match getRecordingOptionsForFormat c1.recordingFormat with
    | .error e => (c1, some e)
    | .ok _ =>
        let c2 := { c1 with hasCapturer := true, isRecording := true }
        (if c2.isPlaying then c2 else play c2, none)

end AnimationControllerModel

/-! ## Terrain and model ingestion (src/unnamed/part_004 `Terrain`,
SimView.initFromModel lines 339-345)

The Terrain constructor builds, per batch, a surface geometry from
`heightData[i]` and a group of normal arrows from
`heightData[i]`/`normals[i]`, without any length validation.  A JS
out-of-range array read yields `undefined` (embedded as `Option.none`,
never a throw); the only throw site in the construction is the
destructuring `const [nx, ny, nz] = normals[dataIndex]` when
`normals[dataIndex]` is `undefined`, and reading batch `i` data that is
absent.  Terrain `dimensions` use the field names of part_004
(`extentX/extentY` for physical size, `shapeX/shapeY` for resolution —
the spec's `sizeX/resolutionX` schema is the README alias of the same
fields). -/

namespace TerrainModel

structure TerrainDims where
  extentX : ℚ
  extentY : ℚ
  shapeX : ℕ
  shapeY : ℕ
  deriving DecidableEq, Repr

structure TerrainBounds where
  minX : ℚ
  maxX : ℚ
  minY : ℚ
  maxY : ℚ
  minZ : ℚ
  maxZ : ℚ
  deriving DecidableEq, Repr

/-- The terrain payload as the Terrain code consumes it: `heightData[i]`
and `normals[i]` are the per-batch flattened height array and per-batch
normal list. -/
structure TerrainData where
  dimensions : TerrainDims
  bounds : TerrainBounds
  heightData : List (List ℚ)
  normals : List (List (List ℚ))
  deriving DecidableEq, Repr

/-- Embedding of `TERRAIN_CONFIG.skipNormalCells` (config.js). -/
def skipNormalCells : ℕ := 10

/-- The vertex z-assignment loop of `#createSurfaceGeometryFromHeightData`
(part_004 lines 114-129): for each of the `shapeX * shapeY` plane
vertices, read `heightData[row * shapeX + col]`; an out-of-range read is
`undefined` (`none`) and throws nothing. -/
def surfaceZValues (dims : TerrainDims) (heights : List ℚ) : List (Option ℚ) :=
  (List.range (dims.shapeX * dims.shapeY)).map (fun i =>
    let col := i % dims.shapeX
    let invertedRow := i / dims.shapeY
    let row : ℤ := (dims.shapeY : ℤ) - invertedRow - 1
    let dataIndex : ℤ := row * dims.shapeX + col
    if dataIndex < 0 then none else heights.get? dataIndex.toNat)

/-- One sampled normal arrow: base point and direction as read. -/
structure NormalArrow where
  origin : Option ℚ × Option ℚ × ℚ
  direction : List ℚ
  deriving DecidableEq, Repr

/-- The sampled `(row, col)` pairs of `#createNormalVectors` (lines
213-239): `row` and `col` run from 0 by `skipFactor` while below the
shape. -/
def sampleGrid (shapeX shapeY skipFactor : ℕ) : List (ℕ × ℕ) :=
  ((List.range shapeY).filter (fun r => r % skipFactor = 0)).flatMap
    (fun r => ((List.range shapeX).filter (fun cc => cc % skipFactor = 0)).map
      (fun cc => (r, cc)))

/-- Embedding of `#createNormalVectors` (part_004 lines 197-241): for each sampled
cell with `dataIndex < heightData.length`, destructure
`normals[dataIndex]` — a JS `TypeError` when that entry is `undefined` —
and build an arrow. -/
def createNormalVectors (dims : TerrainDims) (bounds : TerrainBounds)
    (heights : List ℚ) (normals : List (List ℚ)) :
    Except String (List NormalArrow) :=
  let skipFactor := max 1 (dims.shapeX / skipNormalCells)
  (sampleGrid dims.shapeX dims.shapeY skipFactor).foldlM
    (fun acc rc =>
      let dataIndex := rc.1 * dims.shapeX + rc.2
      if dataIndex < heights.length then
        match normals.get? dataIndex with
        | none => .error "TypeError: normals[dataIndex] is undefined"
        | some nrm =>
            let x := if dims.shapeX = 1 then none
              else some (bounds.minX + rc.2 * (dims.extentX / (dims.shapeX - 1)))
            let y := if dims.shapeY = 1 then none
              else some (bounds.minY + rc.1 * (dims.extentY / (dims.shapeY - 1)))
            let z := heights.getD dataIndex 0
            .ok (acc ++ [{ origin := (x, y, z), direction := nrm }])
      else .ok acc)
    []

structure BatchTerrain where
  zValues : List (Option ℚ)
  normalArrows : List NormalArrow
  deriving DecidableEq, Repr

structure Terrain where
  dimensions : TerrainDims
  bounds : TerrainBounds
  batches : List BatchTerrain
  deriving DecidableEq, Repr

/-- Embedding of `Terrain.constructor` + `#createVisualRepresentations` (part_004
lines 5-73): store bounds and dimensions, then for each batch index `i`
below the batch count build the surface geometry from `heightData[i]`
and the normal arrows from `heightData[i]` / `normals[i]`.  Reading a
batch entry that is absent makes the geometry loop dereference
`undefined[dataIndex]`, a JS `TypeError`.  No length invariant between
`heightData`, `normals` and `shapeX * shapeY` is checked anywhere. -/
def mkTerrainBatch (terrainData : TerrainData) (acc : List BatchTerrain)
    (i : ℕ) : Except String (List BatchTerrain) :=
  match terrainData.heightData.get? i with
  | none => Except.error "TypeError: heightData[i] is undefined"
  | some heights =>
      let zs := surfaceZValues terrainData.dimensions heights
      match createNormalVectors terrainData.dimensions terrainData.bounds
          heights (terrainData.normals.getD i []) with
      | Except.error e => Except.error e
      | Except.ok arrows =>
          Except.ok (acc ++ [{ zValues := zs, normalArrows := arrows }])

def mkTerrain (terrainData : TerrainData) (batchCount : ℕ) :
    Except String Terrain :=
  ((List.range batchCount).foldlM (mkTerrainBatch terrainData)
    ([] : List BatchTerrain)).map (fun bs =>
    { dimensions := terrainData.dimensions, bounds := terrainData.bounds,
      batches := bs })

/-- The model payload fields that the terrain ingestion path reads. -/
structure ModelData where
  simBatches : Option ℤ
  terrain : Option TerrainData
  deriving DecidableEq, Repr

/-- Embedding of `BatchManager._initialize` batch count: `Math.max(1, parseInt(v))`
when `simBatches` is present, default 1. -/
def modelBatchCount (model : ModelData) : ℕ :=
  match model.simBatches with
  | some v => (max 1 v).toNat
  | none => 1

/-- The terrain-ingestion slice of `SimView.initFromModel` (lines
305-356): `BatchManager._initialize` dereferences
`modelData.terrain.dimensions` (a `TypeError` when `terrain` is absent;
the explicit line-344 `throw new Error("Terrain data is missing in
model")` guards the same condition), then `new Terrain(model.terrain,
this)` runs with the batch count.  Either way a missing terrain is a
load-time failure; nothing else about the terrain payload is checked. -/
def initFromModelTerrain (model : ModelData) : Except String Terrain :=
  match model.terrain with
  | none => .error "Terrain data is missing in model"
  | some td => mkTerrain td (modelBatchCount model)

end TerrainModel

/-! ## Concrete fixtures

The concrete scenarios named by the spec: three states at times
`0, 0.1, 0.2`, a body with an optional `velocity` attribute and no
`contacts`, and a terrain payload whose flat arrays are shorter than
`resolutionX * resolutionY`. -/

namespace Fixtures

open AnimationControllerModel BodyModel TerrainModel

def threeStates : List Snapshot := [⟨0, []⟩, ⟨1/10, []⟩, ⟨2/10, []⟩]

/-- A body declared with `velocity` but without `contacts`. -/
def velocityBody : Body := mkBody "b" 1 ["velocity"]

/-- The controller after `new AnimationController(app, undefined)` and
`loadAnimation(threeStates)` — the spec's concrete seek scenario. -/
def loadedController : AnimationController :=
  loadAnimation (mkController none [("b", velocityBody)]) threeStates

/-- The fixture `loadedController` with the recording format switched to an
unsupported value. -/
def gifController : AnimationController :=
  { loadedController with recordingFormat := "gif" }

/-- A state slice that carries only a `contacts` field. -/
def contactsOnlySlice : BodyStateSlice :=
  { name := "b", position := none, orientation := none, bodyTransform := none,
    attrs := [("contacts", .flat [0])] }

/-- A terrain payload with `resolutionX = resolutionY = 2` (so
`resolutionX * resolutionY = 4`) whose single batch carries a
`heightData` flat array and a `normals` list both of length 1: the
lengths agree with each other but violate
`heightData.length == resolutionX * resolutionY`. -/
def shortTerrain : TerrainData :=
  { dimensions := { extentX := 10, extentY := 10, shapeX := 2, shapeY := 2 }
    bounds := { minX := 0, maxX := 10, minY := 0, maxY := 10, minZ := 0, maxZ := 1 }
    heightData := [[5]]
    normals := [[[0, 0, 1]]] }

def shortTerrainModel : ModelData :=
  { simBatches := some 1, terrain := some shortTerrain }

def noTerrainModel : ModelData := { simBatches := some 1, terrain := none }

end Fixtures

/-! ## Helper lemmas -/

namespace BatchManager

theorem sampleScaleColors_length (anchors : List String) (n : ℕ) :
    (sampleScaleColors anchors n).length = n := by
  simp [sampleScaleColors]

theorem ceilSqrt_ge_one {n : ℕ} (h : 1 ≤ n) : 1 ≤ ceilSqrt n := by
  unfold ceilSqrt
  split
  · rename_i hs
    rcases Nat.eq_zero_or_pos (Nat.sqrt n) with h0 | h1
    · rw [h0] at hs; omega
    · exact h1
  · omega

theorem lt_ceilSqrt_sq (n : ℕ) : n ≤ ceilSqrt n * ceilSqrt n := by
  unfold ceilSqrt
  split
  · rename_i hs; omega
  · have h := Nat.lt_succ_sqrt n
    simp only [Nat.succ_eq_add_one] at h
    omega

theorem getBatchIndexFromRowCol_in_range {n : ℕ} {r c : ℤ}
    (hr : 0 ≤ r) (hc : 0 ≤ c) (hrs : r < (ceilSqrt n : ℤ))
    (hcs : c < (ceilSqrt n : ℤ)) (hlt : r * (ceilSqrt n : ℤ) + c < (n : ℤ)) :
    getBatchIndexFromRowCol n r c = r * (ceilSqrt n : ℤ) + c := by
  have hmul : 0 ≤ r * (ceilSqrt n : ℤ) := mul_nonneg hr (by omega)
  unfold getBatchIndexFromRowCol
  rw [if_neg (by omega)]
  rw [if_neg (by omega)]

theorem getRowColFromBatchIndex_in_range {n : ℕ} {i : ℤ}
    (h0 : 0 ≤ i) (hn : i < (n : ℤ)) :
    getRowColFromBatchIndex n i =
      (i / (ceilSqrt n : ℤ), i % (ceilSqrt n : ℤ)) := by
  unfold getRowColFromBatchIndex
  rw [if_neg (by omega)]

end BatchManager

namespace SimView

theorem handleStates_blocked {s : GateState}
    (h : s.statesListenerAttached = true) (hg : s.canReceiveStates = false) :
    handleStates s = s := by
  simp [handleStates, h, hg]

theorem socketRun_states_blocked (s : GateState) (n : ℕ)
    (h : s.statesListenerAttached = true) (hg : s.canReceiveStates = false) :
    socketRun s (List.replicate n .statesArrives) = s := by
  induction n with
  | zero => rfl
  | succ k ih =>
      rw [List.replicate_succ]
      show socketRun (socketStep s .statesArrives) (List.replicate k .statesArrives) = s
      rw [show socketStep s .statesArrives = s from handleStates_blocked h hg]
      exact ih

theorem socketRun_states_no_listener (s : GateState) (n : ℕ)
    (h : s.statesListenerAttached = false) :
    socketRun s (List.replicate n .statesArrives) = s := by
  induction n with
  | zero => rfl
  | succ k ih =>
      rw [List.replicate_succ]
      show socketRun (socketStep s .statesArrives) (List.replicate k .statesArrives) = s
      rw [show socketStep s .statesArrives = s by simp [socketStep, handleStates, h]]
      exact ih

end SimView

/-! ## Claim theorems -/

open BatchManager SimView BodyModel AnimationControllerModel TerrainModel Fixtures

/-- C2, counterexample: with a sampling function that returns exactly `n`
colors (chroma's documented behavior), `simBatches = 2` yields a palette
of 3 colors, not the exactly-`simBatches` (2) colors the claim states.
The palette length depends only on the list combinators around the
sampler, not on the sampled color values. -/
theorem palette_length_two_batches :
    (batchPalette sampleScaleColors 2).length = 3 ∧
    (batchPalette sampleScaleColors 2).length ≠ 2 := by
  constructor
  · rfl
  · decide

/-- C2, amended: for `simBatches ≥ 1` the palette generated through any
exact-length sampling function has `2 * ceil((simBatches + 1) / 2) - 1`
colors — `simBatches` when `simBatches` is odd, `simBatches + 1` when it
is even — always at least `simBatches`, and `getColorForBatch` is a pure
lookup into this palette, hence a deterministic function of
`(simBatches, batchIndex)` for a fixed sampler. -/
theorem palette_size_and_determinism
    (scaleColors : List String → ℕ → List String)
    (hlen : ∀ cs k, (scaleColors cs k).length = k)
    (b : ℕ) (hb : 1 ≤ b) :
    (batchPalette scaleColors b).length = 2 * ((b + 2) / 2) - 1 ∧
    b ≤ (batchPalette scaleColors b).length ∧
    (b % 2 = 1 → (batchPalette scaleColors b).length = b) ∧
    (b % 2 = 0 → (batchPalette scaleColors b).length = b + 1) ∧
    (∀ i : ℤ, 0 ≤ i → i < (b : ℤ) →
      getColorForBatch scaleColors b i =
        (batchPalette scaleColors b).getD i.toNat "#000000") := by
  have hL : (batchPalette scaleColors b).length = 2 * ((b + 2) / 2) - 1 := by
    unfold batchPalette generateDivergingPalette
    rw [List.length_append, List.length_dropLast, hlen, hlen]
    omega
  refine ⟨hL, by omega, by omega, by omega, ?_⟩
  intro i h0 hb2
  unfold getColorForBatch
  rw [if_neg (by omega)]

/-- C2 amended, witness at `simBatches = 3` (odd: exactly 3 colors) and
batch index 1. -/
theorem palette_size_witness :
    (batchPalette sampleScaleColors 3).length = 2 * ((3 + 2) / 2) - 1 ∧
    3 ≤ (batchPalette sampleScaleColors 3).length ∧
    (3 % 2 = 1 → (batchPalette sampleScaleColors 3).length = 3) ∧
    (3 % 2 = 0 → (batchPalette sampleScaleColors 3).length = 3 + 1) ∧
    (∀ i : ℤ, 0 ≤ i → i < (3 : ℤ) →
      getColorForBatch sampleScaleColors 3 i =
        (batchPalette sampleScaleColors 3).getD i.toNat "#000000") :=
  palette_size_and_determinism sampleScaleColors
    sampleScaleColors_length 3 (by decide)

/-- C6: for every `simBatches ≥ 1`, the grid mappings round-trip on every
populated cell, and `getBatchIndexFromRowCol` returns the sentinel `-1`
(without any possibility of throwing — it is a total function) for every
cell outside the square grid or whose computed row-major index reaches
`simBatches`. -/
theorem batch_grid_roundtrip (n : ℕ) (hn : 1 ≤ n) (r c : ℤ) :
    (0 ≤ r → 0 ≤ c → r < (ceilSqrt n : ℤ) → c < (ceilSqrt n : ℤ) →
      r * (ceilSqrt n : ℤ) + c < (n : ℤ) →
      getRowColFromBatchIndex n (getBatchIndexFromRowCol n r c) = (r, c)) ∧
    ((r < 0 ∨ c < 0 ∨ (ceilSqrt n : ℤ) ≤ r ∨ (ceilSqrt n : ℤ) ≤ c ∨
      (n : ℤ) ≤ r * (ceilSqrt n : ℤ) + c) →
      getBatchIndexFromRowCol n r c = -1) := by
  constructor
  · intro hr hc hrs hcs hlt
    have hmul : 0 ≤ r * (ceilSqrt n : ℤ) := mul_nonneg hr (by omega)
    rw [getBatchIndexFromRowCol_in_range hr hc hrs hcs hlt]
    rw [getRowColFromBatchIndex_in_range (by omega) hlt]
    have hS0 : (ceilSqrt n : ℤ) ≠ 0 := by
      have := ceilSqrt_ge_one hn; omega
    have hdiv : (r * (ceilSqrt n : ℤ) + c) / (ceilSqrt n : ℤ) = r := by
      rw [show r * (ceilSqrt n : ℤ) + c = c + (ceilSqrt n : ℤ) * r by ring]
      rw [Int.add_mul_ediv_left c r hS0]
      rw [Int.ediv_eq_zero_of_lt hc hcs]
      omega
    have hmod : (r * (ceilSqrt n : ℤ) + c) % (ceilSqrt n : ℤ) = c := by
      rw [show r * (ceilSqrt n : ℤ) + c = c + r * (ceilSqrt n : ℤ) by ring]
      rw [Int.add_mul_emod_self]
      exact Int.emod_eq_of_lt hc hcs
    rw [hdiv, hmod]
  · intro h
    unfold getBatchIndexFromRowCol
    by_cases hgrid : r < 0 ∨ c < 0 ∨ (ceilSqrt n : ℤ) ≤ r ∨ (ceilSqrt n : ℤ) ≤ c
    · rw [if_pos hgrid]
    · rw [if_neg hgrid]
      have hge : (n : ℤ) ≤ r * (ceilSqrt n : ℤ) + c := by tauto
      rw [if_pos (Or.inr hge)]

theorem ceilSqrt_three : ceilSqrt 3 = 2 := by
  have h2 : (2 : ℕ) ≤ 1 + 1 := by omega
  have hs : Nat.sqrt 3 = 1 := Nat.sqrt_add_eq 1 h2
  simp [ceilSqrt, hs]

/-- C6, witness at `simBatches = 3` (grid side 2): cell `(1, 0)` is
populated (index 2) and round-trips; cell `(1, 1)` computes index
`3 ≥ simBatches` and maps to the sentinel. -/
theorem batch_grid_roundtrip_witness :
    getRowColFromBatchIndex 3 (getBatchIndexFromRowCol 3 1 0) = (1, 0) ∧
    getBatchIndexFromRowCol 3 1 1 = -1 :=
  ⟨(batch_grid_roundtrip 3 (by decide) 1 0).1 (by decide) (by decide)
      (by rw [ceilSqrt_three]; decide) (by rw [ceilSqrt_three]; decide)
      (by rw [ceilSqrt_three]; decide),
   (batch_grid_roundtrip 3 (by decide) 1 1).2
      (by rw [ceilSqrt_three]; decide)⟩

/-- C1: (i) any number of states payloads delivered before any model has
loaded leave the initial `SimView` state unchanged (no listener is
registered yet); (ii) from any state, a model load leaves the gate true
with all entities constructed (the gate write follows `initFromModel`);
(iii) the first states payload after a model load is accepted and flips
the gate false immediately; (iv) delivering `k ≥ 1` states payloads after
a model load has exactly the effect of delivering the first one — every
further payload is dropped until the next model load. -/
theorem states_accept_gate (n k : ℕ) (s : GateState) (hk : 1 ≤ k) :
    socketRun initGate (List.replicate n .statesArrives) = initGate ∧
    (socketStep s .modelArrives).canReceiveStates = true ∧
    (socketStep s .modelArrives).entitiesConstructed = true ∧
    (socketStep (socketStep s .modelArrives) .statesArrives).canReceiveStates
      = false ∧
    (socketStep (socketStep s .modelArrives) .statesArrives).processedStates
      = (socketStep s .modelArrives).processedStates + 1 ∧
    socketRun (socketStep s .modelArrives) (List.replicate k .statesArrives)
      = socketStep (socketStep s .modelArrives) .statesArrives := by
  refine ⟨socketRun_states_no_listener initGate n rfl, rfl, rfl, ?_, ?_, ?_⟩
  · simp [socketStep, handleModel, initFromModelGate, handleStates]
  · simp [socketStep, handleModel, initFromModelGate, handleStates]
  · obtain ⟨j, rfl⟩ : ∃ j, k = j + 1 := ⟨k - 1, by omega⟩
    rw [List.replicate_succ]
    show socketRun (socketStep (socketStep s .modelArrives) .statesArrives)
        (List.replicate j .statesArrives) = _
    exact socketRun_states_blocked _ j
      (by simp [socketStep, handleModel, initFromModelGate, handleStates])
      (by simp [socketStep, handleModel, initFromModelGate, handleStates])

/-- C1, witness: two states payloads before any model are no-ops, and
after the first model load three consecutive states payloads have the
effect of exactly one. -/
theorem states_accept_gate_witness :
    socketRun initGate (List.replicate 2 .statesArrives) = initGate ∧
    socketRun (socketStep initGate .modelArrives)
        (List.replicate 3 .statesArrives)
      = socketStep (socketStep initGate .modelArrives) .statesArrives :=
  ⟨(states_accept_gate 2 3 initGate (by decide)).1,
   (states_accept_gate 2 3 initGate (by decide)).2.2.2.2.2⟩

namespace AnimationControllerModel

/-- Helper: `updateScene` only rewrites `appBodies`; every clock, playback and
recording field of the controller is untouched (structure eta). -/
theorem updateScene_eq (c : AnimationController) :
    updateScene c = { c with appBodies := (updateScene c).appBodies } := by
  unfold updateScene
  split
  · rfl
  · split <;> rfl

/-- Field projections of `seekToIndex`: the index is set, the time is the
snapshot's time, and the remaining clock/playback fields are preserved. -/
theorem seekToIndex_proj (c : AnimationController) (i : ℤ) :
    (seekToIndex c i).currentStateIndex = i ∧
    (seekToIndex c i).currentTime =
      (c.states.getD i.toNat defaultSnapshot).time ∧
    (seekToIndex c i).states = c.states ∧
    (seekToIndex c i).isPlaying = c.isPlaying ∧
    (seekToIndex c i).isRecording = c.isRecording ∧
    (seekToIndex c i).recordingFormat = c.recordingFormat ∧
    (seekToIndex c i).totalTime = c.totalTime ∧
    (seekToIndex c i).simulationTimestep = c.simulationTimestep := by
  unfold seekToIndex
  rw [updateScene_eq]
  exact ⟨rfl, rfl, rfl, rfl, rfl, rfl, rfl, rfl⟩

theorem jsRound_intCast (m : ℤ) : jsRound (m : ℚ) = m := by
  unfold jsRound
  have h2 : ⌊(1 : ℚ) / 2⌋ = 0 := by norm_num
  rw [Int.floor_int_add, h2]
  omega

theorem getStateIndexForTime_bounds (c : AnimationController)
    (hlen : 1 ≤ c.states.length) (t : ℚ) :
    0 ≤ getStateIndexForTime c t ∧
    getStateIndexForTime c t ≤ (c.states.length : ℤ) - 1 := by
  simp only [getStateIndexForTime]
  split_ifs <;> omega

/-- Wrap arithmetic: `(i+1) mod L` followed by `(· - 1 + L) mod L` is the identity on
`[0, L)`. -/
theorem wrap_cancel {i L : ℤ} (hL : 1 ≤ L) (h0 : 0 ≤ i) (hiL : i < L) :
    ((i + 1) % L - 1 + L) % L = i := by
  rcases lt_or_eq_of_le (show i + 1 ≤ L by omega) with hlt | heq
  · rw [Int.emod_eq_of_lt (by omega) hlt]
    rw [show i + 1 - 1 + L = i + L * 1 by ring]
    rw [Int.add_mul_emod_self_left]
    exact Int.emod_eq_of_lt h0 hiL
  · rw [heq, Int.emod_self]
    rw [show (0 : ℤ) - 1 + L = L - 1 by ring]
    rw [Int.emod_eq_of_lt (by omega) (by omega)]
    omega

/-- Evaluating the fixture: `loadAnimation` on the three-state timeline
infers timestep `0.1` (there is no provided `dt`), takes `totalTime`
from the last snapshot, and pins the clock to index 0, time 0. -/
theorem loadedController_eval :
    loadedController =
      { states := threeStates, isPlaying := false, playbackSpeed := 1,
        isRecording := false, hasCapturer := false, recordingFormat := "jpg",
        currentStateIndex := 0, totalTime := 2/10, currentTime := 0,
        simulationTimestep := 1/10, appBodies := [("b", velocityBody)] } := by
  unfold Fixtures.loadedController loadAnimation inferTimestep mkController
    goToTime getStateIndexForTime seekToIndex updateScene Fixtures.threeStates
  norm_num [jsRound, defaultSnapshot]

theorem loadedController_timestep : loadedController.simulationTimestep = 1 / 10 := by
  rw [loadedController_eval]

theorem loadedController_len : loadedController.states.length = 3 := by
  rw [loadedController_eval]
  rfl

theorem loadedController_index_014 :
    getStateIndexForTime loadedController (14 / 100) = 1 := by
  rw [loadedController_eval]
  simp only [getStateIndexForTime]
  norm_num [jsRound, Fixtures.threeStates]

theorem loadedController_index_016 :
    getStateIndexForTime loadedController (16 / 100) = 2 := by
  rw [loadedController_eval]
  simp only [getStateIndexForTime]
  norm_num [jsRound, Fixtures.threeStates]

end AnimationControllerModel

/-- C4: `getStateIndexForTime(t)` is `round(t / timestep)` clamped into
`[0, states.length - 1]`, rounding to nearest before clamping; on the
spec's concrete scenario (states at times 0, 0.1, 0.2, timestep inferred
as 0.1 by `loadAnimation`) it maps 0.14 to index 1 and 0.16 to index 2. -/
theorem index_from_time_round_then_clamp :
    (∀ (c : AnimationController) (t : ℚ), 1 ≤ c.states.length →
      getStateIndexForTime c t =
        min (max (jsRound (t / c.simulationTimestep)) 0)
          ((c.states.length : ℤ) - 1)) ∧
    loadedController.simulationTimestep = 1 / 10 ∧
    getStateIndexForTime loadedController (14 / 100) = 1 ∧
    getStateIndexForTime loadedController (16 / 100) = 2 := by
  refine ⟨?_, loadedController_timestep, loadedController_index_014,
    loadedController_index_016⟩
  intro c t hlen
  simp only [getStateIndexForTime]
  split_ifs <;> omega

/-- C4, witness: the round-then-clamp characterization applied at the
loaded three-state controller and `t = 0.14`. -/
theorem index_from_time_round_then_clamp_witness :
    getStateIndexForTime loadedController (14 / 100) =
      min (max (jsRound ((14 / 100) / loadedController.simulationTimestep)) 0)
        ((loadedController.states.length : ℤ) - 1) :=
  index_from_time_round_then_clamp.1 loadedController (14 / 100)
    (by simp [AnimationControllerModel.loadedController_len])

/-- C5: for a positive timestep and non-empty states,
`getStateIndexForTime` is monotone in the time over `[0, totalTime]`,
and when the states lie on the uniform grid `states[i].time = i * timestep`
the index-to-time-to-index mapping returns the same index (idempotence). -/
theorem index_time_monotone_idempotent (c : AnimationController)
    (hdt : 0 < c.simulationTimestep) (hlen : 1 ≤ c.states.length)
    (t1 t2 : ℚ) (h0 : 0 ≤ t1) (h12 : t1 ≤ t2) (h2 : t2 ≤ c.totalTime) :
    getStateIndexForTime c t1 ≤ getStateIndexForTime c t2 ∧
    ((∀ i : ℕ, i < c.states.length →
        (c.states.getD i defaultSnapshot).time = (i : ℚ) * c.simulationTimestep) →
      getStateIndexForTime c
          ((c.states.getD (getStateIndexForTime c t1).toNat defaultSnapshot).time)
        = getStateIndexForTime c t1) := by
  have hmono : jsRound (t1 / c.simulationTimestep) ≤
      jsRound (t2 / c.simulationTimestep) := by
    apply Int.floor_le_floor
    have : t1 / c.simulationTimestep ≤ t2 / c.simulationTimestep := by gcongr
    linarith
  constructor
  · simp only [getStateIndexForTime]
    split_ifs <;> omega
  · intro huni
    obtain ⟨hb0, hb1⟩ := getStateIndexForTime_bounds c hlen t1
    have hiN : ((getStateIndexForTime c t1).toNat : ℤ) = getStateIndexForTime c t1 :=
      Int.toNat_of_nonneg hb0
    have hlt : (getStateIndexForTime c t1).toNat < c.states.length := by omega
    rw [huni (getStateIndexForTime c t1).toNat hlt]
    have hdiv : (((getStateIndexForTime c t1).toNat : ℚ) * c.simulationTimestep) /
        c.simulationTimestep = ((getStateIndexForTime c t1).toNat : ℚ) :=
      mul_div_cancel_right₀ _ (ne_of_gt hdt)
    conv_lhs => rw [getStateIndexForTime]
    rw [hdiv]
    rw [show (((getStateIndexForTime c t1).toNat : ℚ)) =
        ((((getStateIndexForTime c t1).toNat : ℤ)) : ℚ) by push_cast; ring]
    rw [jsRound_intCast]
    split_ifs <;> omega

/-- C5, witness: monotonicity and idempotence instantiated on the loaded
three-state controller at `t1 = 0.14 ≤ t2 = 0.16`. -/
theorem index_time_monotone_idempotent_witness :
    getStateIndexForTime loadedController (14 / 100) ≤
      getStateIndexForTime loadedController (16 / 100) ∧
    getStateIndexForTime loadedController
        ((loadedController.states.getD
          (getStateIndexForTime loadedController (14 / 100)).toNat
          defaultSnapshot).time)
      = getStateIndexForTime loadedController (14 / 100) := by
  have h := index_time_monotone_idempotent loadedController
    (by rw [loadedController_timestep]; norm_num)
    (by simp [loadedController_len])
    (14 / 100) (16 / 100) (by norm_num) (by norm_num)
    (by rw [loadedController_eval]; norm_num)
  refine ⟨h.1, h.2 ?_⟩
  rw [loadedController_eval]
  intro i hi
  simp only [Fixtures.threeStates, List.length_cons, List.length_nil] at hi
  interval_cases i <;>
    simp [Fixtures.threeStates, List.getD_cons_zero, List.getD_cons_succ] <;>
    norm_num

/-- C7: `goToTime(t)` with `t` outside `[0, totalTime]` returns before
any mutation: the whole controller state — clock fields and every
entity's state — is unchanged, and the embedding is total (no error). -/
theorem goToTime_out_of_range_noop (c : AnimationController)
    (htt : 0 < c.totalTime) (t : ℚ) (h : t < 0 ∨ c.totalTime < t) :
    goToTime c t = c := by
  unfold goToTime
  rw [if_pos h]

/-- C7, witness: `goToTime(-5)` and `goToTime(totalTime + 100)` on the
loaded three-state controller (total time `0.2 > 0`) change nothing. -/
theorem goToTime_out_of_range_noop_witness :
    goToTime loadedController (-5) = loadedController ∧
    goToTime loadedController (loadedController.totalTime + 100)
      = loadedController :=
  ⟨goToTime_out_of_range_noop loadedController
      (by rw [loadedController_eval]; norm_num) (-5) (Or.inl (by norm_num)),
   goToTime_out_of_range_noop loadedController
      (by rw [loadedController_eval]; norm_num) _
      (Or.inr (lt_add_of_pos_right _ (by norm_num)))⟩

/-- C9: while paused, for a timeline of length `L ≥ 1`, `stepForward`
sets the index to `(i + 1) mod L`, `stepBackward` sets it to
`(i - 1 + L) mod L`, and for the invariant range `0 ≤ i < L` a
`stepBackward` after a `stepForward` restores the original index. -/
theorem step_wraparound (c : AnimationController) (hp : c.isPlaying = false)
    (hlen : 1 ≤ c.states.length) :
    (stepForward c).currentStateIndex =
      (c.currentStateIndex + 1) % (c.states.length : ℤ) ∧
    (stepBackward c).currentStateIndex =
      (c.currentStateIndex - 1 + (c.states.length : ℤ)) %
        (c.states.length : ℤ) ∧
    (0 ≤ c.currentStateIndex → c.currentStateIndex < (c.states.length : ℤ) →
      (stepBackward (stepForward c)).currentStateIndex
        = c.currentStateIndex) := by
  have hf : stepForward c =
      seekToIndex c ((c.currentStateIndex + 1) % (c.states.length : ℤ)) := by
    unfold stepForward
    rw [if_neg (by simp [hp])]
  refine ⟨?_, ?_, ?_⟩
  · rw [hf]
    exact (seekToIndex_proj c _).1
  · unfold stepBackward
    rw [if_neg (by simp [hp])]
    exact (seekToIndex_proj c _).1
  · intro h0 hlt
    rw [hf]
    have hp1 : (seekToIndex c ((c.currentStateIndex + 1) %
        (c.states.length : ℤ))).isPlaying = false := by
      rw [(seekToIndex_proj c _).2.2.2.1]
      exact hp
    have hst : (seekToIndex c ((c.currentStateIndex + 1) %
        (c.states.length : ℤ))).states = c.states :=
      (seekToIndex_proj c _).2.2.1
    have hsi : (seekToIndex c ((c.currentStateIndex + 1) %
        (c.states.length : ℤ))).currentStateIndex =
        (c.currentStateIndex + 1) % (c.states.length : ℤ) :=
      (seekToIndex_proj c _).1
    unfold stepBackward
    rw [if_neg (by simp [hp1])]
    rw [(seekToIndex_proj _ _).1]
    rw [hsi, hst]
    exact wrap_cancel (by omega) h0 hlt

/-- C9, witness: on the loaded three-state controller (paused, index 0,
length 3), `stepForward` moves to `(0 + 1) mod 3` and a following
`stepBackward` restores index 0. -/
theorem step_wraparound_witness :
    (stepForward loadedController).currentStateIndex =
      (loadedController.currentStateIndex + 1) %
        (loadedController.states.length : ℤ) ∧
    (stepBackward (stepForward loadedController)).currentStateIndex =
      loadedController.currentStateIndex := by
  have h := step_wraparound loadedController
    (by rw [loadedController_eval]) (by simp [loadedController_len])
  exact ⟨h.1, h.2.2 (by rw [loadedController_eval])
    (by rw [loadedController_eval]; simp [Fixtures.threeStates])⟩

/-- C10: `startRecording` with an unsupported recording format throws
`Unsupported format: ...`, but only after `seekToIndex(0)` has run: the
pair returned by the embedding is exactly the seeked controller state
(index 0, time `states[0].time`, entities updated with state 0) together
with the error, and `isRecording` is still false — the failure is not
atomic with respect to playback state. -/
theorem startRecording_not_atomic (c : AnimationController)
    (hr : c.isRecording = false) (hf1 : c.recordingFormat ≠ "jpg")
    (hf2 : c.recordingFormat ≠ "png") :
    startRecording c =
      (seekToIndex c 0, some ("Unsupported format: " ++ c.recordingFormat)) ∧
    (seekToIndex c 0).currentStateIndex = 0 ∧
    (seekToIndex c 0).currentTime = (c.states.getD 0 defaultSnapshot).time ∧
    (seekToIndex c 0).isRecording = false := by
  have hfmt : (seekToIndex c 0).recordingFormat = c.recordingFormat :=
    (seekToIndex_proj c 0).2.2.2.2.2.1
  have hopt : getRecordingOptionsForFormat (seekToIndex c 0).recordingFormat =
      Except.error ("Unsupported format: " ++ c.recordingFormat) := by
    rw [hfmt]
    unfold getRecordingOptionsForFormat
    rw [if_neg hf1, if_neg hf2]
  refine ⟨?_, (seekToIndex_proj c 0).1, (seekToIndex_proj c 0).2.1, ?_⟩
  · unfold startRecording
    rw [if_neg (by simp [hr])]
    simp only [hopt]
  · rw [(seekToIndex_proj c 0).2.2.2.2.1]
    exact hr

/-- C10, witness: the loaded controller with recording format `"gif"`. -/
theorem startRecording_not_atomic_witness :
    startRecording gifController =
      (seekToIndex gifController 0,
        some ("Unsupported format: " ++ gifController.recordingFormat)) ∧
    (seekToIndex gifController 0).currentStateIndex = 0 ∧
    (seekToIndex gifController 0).currentTime =
      (gifController.states.getD 0 defaultSnapshot).time ∧
    (seekToIndex gifController 0).isRecording = false :=
  startRecording_not_atomic gifController
    (by simp [Fixtures.gifController, loadedController_eval])
    (by simp [Fixtures.gifController])
    (by simp [Fixtures.gifController])

namespace BodyModel

/-- Generic preservation of a body observation through the batched-update
loop. -/
theorem applyBatched_pres {γ : Type} (P : Body → γ)
    (f : Body → List ℚ → ℕ → Body) (hf : ∀ b v i, P (f b v i) = P b)
    (b : Body) (vs : List (List ℚ)) : P (applyBatched f b vs) = P b := by
  unfold applyBatched
  generalize List.range (min b.batchSize vs.length) = l
  induction l generalizing b with
  | nil => rfl
  | cons a rest ih =>
      rw [List.foldl_cons, ih (f b (vs.getD a []) a)]
      exact hf b (vs.getD a []) a

theorem applyField_pres {γ : Type} (P : Body → γ)
    (f : Body → List ℚ → ℕ → Body) (hf : ∀ b v i, P (f b v i) = P b)
    (b : Body) (d : Option AttrData) : P (applyField f b d) = P b := by
  cases d with
  | none => rfl
  | some ad =>
      cases ad with
      | flat v => exact hf b v 0
      | batched vs => exact applyBatched_pres P f hf b vs

theorem setPosition_storage (b : Body) (v : List ℚ) (i : ℕ) :
    (setPosition b v i).attributeStorage = b.attributeStorage := by
  unfold setPosition
  split
  · rfl
  · rfl

theorem setOrientation_storage (b : Body) (v : List ℚ) (i : ℕ) :
    (setOrientation b v i).attributeStorage = b.attributeStorage := by
  unfold setOrientation
  split
  · rfl
  · rfl

theorem applyTransform_storage (b : Body) (t : List ℚ) (i : ℕ) :
    (applyTransform b t i).attributeStorage = b.attributeStorage := by
  unfold applyTransform
  split
  · rw [setOrientation_storage, setPosition_storage]
  · rfl

/-- The pose stage never touches the attribute storage. -/
theorem updateStatePose_storage (b : Body) (slice : BodyStateSlice) :
    (updateStatePose b slice).attributeStorage = b.attributeStorage := by
  unfold updateStatePose
  rw [applyField_pres _ _ applyTransform_storage,
    applyField_pres _ _ setOrientation_storage,
    applyField_pres _ _ setPosition_storage]

/-- Helper: `updateAttribute` rewrites slot contents in place; the set of stored
attribute names is unchanged. -/
theorem updateAttribute_keys (b : Body) (attr : String) (data : List ℚ)
    (i : ℕ) :
    (updateAttribute b attr data i).attributeStorage.map Prod.fst =
      b.attributeStorage.map Prod.fst := by
  unfold updateAttribute
  split
  · rfl
  · show (b.attributeStorage.map _).map Prod.fst = _
    rw [List.map_map]
    apply List.map_congr_left
    intro e he
    by_cases h : e.1 = attr <;> simp [h]

theorem updateStateAttrStep_keys (attrs : List (String × AttrData))
    (acc : Body) (attr : String) :
    (updateStateAttrStep attrs acc attr).attributeStorage.map Prod.fst =
      acc.attributeStorage.map Prod.fst := by
  unfold updateStateAttrStep
  split
  · rfl
  · exact applyField_pres (fun bb => bb.attributeStorage.map Prod.fst) _
      (fun b v i => updateAttribute_keys b attr v i) acc _

theorem foldl_attrStep_keys (attrs : List (String × AttrData))
    (keys : List String) (b : Body) :
    (keys.foldl (updateStateAttrStep attrs) b).attributeStorage.map Prod.fst =
      b.attributeStorage.map Prod.fst := by
  induction keys generalizing b with
  | nil => rfl
  | cons k rest ih =>
      rw [List.foldl_cons, ih (updateStateAttrStep attrs b k)]
      exact updateStateAttrStep_keys attrs b k

/-- A key listed in the storage always has a storage entry. -/
theorem lookup_isSome_of_mem_keys (l : List (String × List (List ℚ)))
    (k : String) (hk : k ∈ l.map Prod.fst) : (l.lookup k).isSome := by
  induction l with
  | nil => simp at hk
  | cons e rest ih =>
      simp only [List.map_cons, List.mem_cons] at hk
      rcases hk with hk | hk
      · simp [List.lookup, hk]
      · by_cases he : k == e.1
        · simp [List.lookup, he]
        · simp only [List.lookup, he]
          exact ih hk

/-- Filtering a slice's attribute fields to the keys that have a storage
slot does not change any lookup at a stored key. -/
theorem lookup_filter_isSome (storage : List (String × List (List ℚ)))
    (attrs : List (String × AttrData)) (k : String)
    (hk : (storage.lookup k).isSome) :
    (attrs.filter (fun p => (storage.lookup p.1).isSome)).lookup k =
      attrs.lookup k := by
  induction attrs with
  | nil => rfl
  | cons p rest ih =>
      by_cases hpred : (storage.lookup p.1).isSome
      · rw [List.filter_cons, if_pos hpred]
        by_cases hbeq : k == p.1
        · simp [List.lookup, hbeq]
        · simp only [List.lookup, hbeq]
          exact ih
      · rw [List.filter_cons, if_neg hpred]
        have hbeq : (k == p.1) = false := by
          by_contra hcon
          have : k = p.1 := by
            have := eq_of_beq (a := k) (b := p.1) (by
              cases hb : k == p.1
              · exact absurd hb hcon
              · rfl)
            exact this
          rw [this] at hk
          exact hpred hk
        simp only [List.lookup, hbeq]
        exact ih

theorem foldl_attrStep_congr (attrs1 attrs2 : List (String × AttrData))
    (keys : List String) (b : Body)
    (h : ∀ k ∈ keys, attrs1.lookup k = attrs2.lookup k) :
    keys.foldl (updateStateAttrStep attrs1) b =
      keys.foldl (updateStateAttrStep attrs2) b := by
  induction keys generalizing b with
  | nil => rfl
  | cons k rest ih =>
      rw [List.foldl_cons, List.foldl_cons]
      rw [show updateStateAttrStep attrs1 b k = updateStateAttrStep attrs2 b k by
        unfold updateStateAttrStep
        rw [h k (List.mem_cons_self k rest)]]
      exact ih _ (fun k2 hk2 => h k2 (List.mem_cons_of_mem _ hk2))

theorem foldl_attrStep_nil (keys : List String) (b : Body) :
    keys.foldl (updateStateAttrStep []) b = b := by
  induction keys generalizing b with
  | nil => rfl
  | cons k rest ih => rw [List.foldl_cons]; exact ih b

end BodyModel

/-- C8: (i) `updateState` never changes the set of stored optional
attributes — that set is fixed when the body is constructed at model
load; (ii) attributes of the incoming slice that have no storage slot
are ignored outright: filtering them away yields the same updated body;
(iii) in particular a slice carrying only attributes outside the
declared set (e.g. `contacts` on a body declared without contacts)
leaves the attribute storage unchanged.  `updateState` is a total
function: no slice raises an error. -/
theorem attribute_gating (b : Body) (slice : BodyStateSlice) :
    ((updateState b slice).attributeStorage.map Prod.fst =
      b.attributeStorage.map Prod.fst) ∧
    (updateState b slice =
      updateState b { slice with attrs := slice.attrs.filter (fun p => (b.attributeStorage.lookup p.1).isSome) }) ∧
    ((∀ p ∈ slice.attrs, (b.attributeStorage.lookup p.1).isNone) →
      (updateState b slice).attributeStorage = b.attributeStorage) := by
  have hpose : (updateStatePose b slice).attributeStorage =
      b.attributeStorage := updateStatePose_storage b slice
  have hfiltered : updateState b slice =
      updateState b { slice with attrs := slice.attrs.filter (fun p => (b.attributeStorage.lookup p.1).isSome) } := by
    show updateState b slice =
      ((updateStatePose b slice).attributeStorage.map Prod.fst).foldl
        (updateStateAttrStep (slice.attrs.filter
          (fun p => (b.attributeStorage.lookup p.1).isSome)))
        (updateStatePose b slice)
    unfold updateState
    apply foldl_attrStep_congr
    intro k hk
    have hksome : (b.attributeStorage.lookup k).isSome := by
      rw [hpose] at hk
      exact lookup_isSome_of_mem_keys b.attributeStorage k hk
    exact (lookup_filter_isSome b.attributeStorage slice.attrs k hksome).symm
  refine ⟨?_, hfiltered, ?_⟩
  · unfold updateState
    rw [foldl_attrStep_keys]
    rw [hpose]
  · intro hforeign
    rw [hfiltered]
    have hnil : slice.attrs.filter
        (fun p => (b.attributeStorage.lookup p.1).isSome) = [] := by
      rw [List.filter_eq_nil_iff]
      intro p hp
      have := hforeign p hp
      simp [Option.isNone_iff_eq_none.mp this]
    show (((updateStatePose b _).attributeStorage.map Prod.fst).foldl
        (updateStateAttrStep (slice.attrs.filter
          (fun p => (b.attributeStorage.lookup p.1).isSome))) _).attributeStorage
      = b.attributeStorage
    rw [hnil, foldl_attrStep_nil]
    exact updateStatePose_storage b _

/-- C8, witness: the fixture body declared with `velocity` only, updated
with a slice carrying only a `contacts` field — attribute keys unchanged
and storage untouched. -/
theorem attribute_gating_witness :
    ((updateState velocityBody contactsOnlySlice).attributeStorage.map
        Prod.fst =
      velocityBody.attributeStorage.map Prod.fst) ∧
    (updateState velocityBody contactsOnlySlice).attributeStorage =
      velocityBody.attributeStorage :=
  ⟨(attribute_gating velocityBody contactsOnlySlice).1,
   (attribute_gating velocityBody contactsOnlySlice).2.2 (by decide)⟩

/-- C3, counterexample: `shortTerrainModel` carries a terrain whose flat
`heightData` batch and `normals` batch both have length 1 while
`resolutionX * resolutionY = 4` — the invariant
`heightData.length == normals.length == resolutionX*resolutionY` is
violated — yet the full ingestion path (`initFromModel` terrain branch
plus the `Terrain` constructor) succeeds: there is no load-time failure,
the violation is silently tolerated (out-of-range reads are JS
`undefined`, embedded as `none` z-values). -/
theorem terrain_length_violation_tolerated :
    (shortTerrain.heightData.getD 0 []).length = 1 ∧
    (shortTerrain.normals.getD 0 []).length = 1 ∧
    shortTerrain.dimensions.shapeX * shortTerrain.dimensions.shapeY = 4 ∧
    (initFromModelTerrain shortTerrainModel).isOk = true :=
  ⟨rfl, rfl, rfl, rfl⟩

/-- C3, amended: the only model-terrain condition enforced at ingestion
is the presence of the terrain object — a missing terrain is a load-time
failure (`throw new Error("Terrain data is missing in model")`); no
length invariant among `heightData`, `normals` and
`resolutionX * resolutionY` is checked, and the concrete violating
payload loads successfully. -/
theorem terrain_ingestion_no_length_check :
    (∀ m : ModelData, m.terrain = none →
      initFromModelTerrain m = .error "Terrain data is missing in model") ∧
    (initFromModelTerrain shortTerrainModel).isOk = true := by
  constructor
  · intro m hm
    unfold initFromModelTerrain
    rw [hm]
  · rfl

/-- C3 amended, witness: the model without a terrain field fails to load
with the terrain-missing error. -/
theorem terrain_ingestion_no_length_check_witness :
    initFromModelTerrain noTerrainModel =
      .error "Terrain data is missing in model" :=
  terrain_ingestion_no_length_check.1 noTerrainModel rfl
